import Mathlib

/-!
Verification of the blueberry-browser core against its specification.

This file shallowly embeds the relevant parts of the source:
  - `src/main/BridgeServer.ts` (realtime gateway: auth, heartbeat, command dispatch)
  - `src/main/llm/ModelManager.ts` (provider selector / offline mode transitions)
  - `src/main/chat/MessageStore.ts` (conversation log stream protocol)
  - `src/main/LLMClient.ts` (chat turn orchestration, deterministic page shortcut,
    locale-failure fallback)
  - `src/main/llm/Tools.ts` (tool executor: open_url / get_page_info)

JavaScript strings are modelled as Lean `String` (ASCII-faithful), machine
side effects (network, the JWT library internals, the generation provider,
the page inspector) are modelled as explicit environment records, and every
effectful method is translated to a pure function returning the list of
emitted frames/events together with its new state.
-/

namespace Blueberry

/-! ## Character and string helpers mirroring the JavaScript runtime -/

/-- ASCII lower-casing of a character, mirroring `String.prototype.toLowerCase`
on the ASCII range the source relies on. -/
def jsToLower (c : Char) : Char :=
  if 65 ≤ c.toNat ∧ c.toNat ≤ 90 then Char.ofNat (c.toNat + 32) else c

/-- Lower-cased character list of a string (used for the case-insensitive
regular expressions of the source). -/
def lowerChars (s : String) : List Char := s.data.map jsToLower

/-- Whitespace class of the JavaScript regex `\s` restricted to the code
points the application can realistically see. -/
def jsIsSpace (c : Char) : Bool :=
  c = ' ' || c = '\t' || c = '\n' || c = '\r' || c.toNat = 11 || c.toNat = 12 || c.toNat = 160

/-- JavaScript regex `\w` (word character). -/
def isWordChar (c : Char) : Bool :=
  ('a' ≤ c && c ≤ 'z') || ('A' ≤ c && c ≤ 'Z') || ('0' ≤ c && c ≤ '9') || c = '_'

/-- Try to read the literal `lit` at the head of `s`; return the rest on success. -/
def litAt : List Char → List Char → Option (List Char)
  | [], s => some s
  | _ :: _, [] => none
  | p :: ps, c :: cs => if p = c then litAt ps cs else none

/-- Case-insensitive variant of `litAt`: the literal is given lower-cased and
characters of `s` are lowered before comparison (regex `/…/i`). -/
def litAtCI : List Char → List Char → Option (List Char)
  | [], s => some s
  | _ :: _, [] => none
  | p :: ps, c :: cs => if p = jsToLower c then litAtCI ps cs else none

/-- Does `hay` contain `needle` as a contiguous sublist (regex literal search)? -/
def hasSub (needle : List Char) : List Char → Bool
  | [] => (litAt needle []).isSome
  | c :: cs => (litAt needle (c :: cs)).isSome || hasSub needle cs

/-- `String.prototype.includes` on already-normalised strings. -/
def containsSub (hay needle : String) : Bool := hasSub needle.data hay.data

/-- Consume one-or-more whitespace characters (regex `\s+`, greedy). -/
def eatWs1 : List Char → Option (List Char)
  | [] => none
  | c :: cs => if jsIsSpace c then some (cs.dropWhile jsIsSpace) else none

/-- Match a sequence of literal tokens separated by `\s+` starting at the head
of the input; returns what follows the last token. -/
def matchToks : List (List Char) → List Char → Option (List Char)
  | [], s => some s
  | [t], s => litAt t s
  | t :: t2 :: rest, s =>
    match litAt t s with
    | none => none
    | some s1 =>
      match eatWs1 s1 with
      | none => none
      | some s2 => matchToks (t2 :: rest) s2

/-- Unanchored search for a `\s+`-separated token sequence (regex without
anchors or boundaries). -/
def findToks (toks : List (List Char)) : List Char → Bool
  | [] => (matchToks toks []).isSome
  | c :: cs => (matchToks toks (c :: cs)).isSome || findToks toks cs

/-- As `findToks` but additionally requiring a `\b` word boundary after the
final token. -/
def findToksWordEnd (toks : List (List Char)) : List Char → Bool
  | [] =>
    (match matchToks toks [] with
     | some [] => true
     | some (c :: _) => !isWordChar c
     | none => false)
  | c :: cs =>
    (match matchToks toks (c :: cs) with
     | some [] => true
     | some (r :: _) => !isWordChar r
     | none => false) || findToksWordEnd toks cs

/-- Search for a literal bracketed by `\b` word boundaries on both sides
(`prevIsWord` tracks whether the previous character was a word character). -/
def wordLitFrom (lit : List Char) (prevIsWord : Bool) : List Char → Bool
  | [] => false
  | c :: cs =>
    ((!prevIsWord) &&
      (match litAt lit (c :: cs) with
       | some [] => true
       | some (r :: _) => !isWordChar r
       | none => false)) || wordLitFrom lit (isWordChar c) cs

/-! ## BridgeServer: token verification and connection admission
(`src/main/BridgeServer.ts`, `authOk` lines 117-129, `start` lines 56-76) -/

/-- Decoded claims of a signed bearer token, as seen by `jwt.verify`:
`signedWith` is the secret the signature binds the token to, `exp`/`nbf`
are the optional time-bound claims (seconds). -/
structure SignedToken where
  signedWith : String
  exp : Option Int
  nbf : Option Int
deriving DecidableEq

/-- Environment of the gateway handshake: the JWT decoder (a token string
either decodes to signed claims or is malformed) and the configured secret
(`process.env.BRIDGE_JWT_SECRET || "dev-secret"`). -/
structure AuthEnv where
  decode : String → Option SignedToken
  secret : String

/-- `jwt.verify(token, secret)` succeeds iff the token decodes, its signature
matches the secret, it is not expired (`now < exp`, jsonwebtoken rejects when
`clockTimestamp >= exp`) and it is already valid (`nbf <= now`). -/
def jwtVerify (env : AuthEnv) (now : Int) (token : String) : Bool :=
  match env.decode token with
  | none => false
  | some t =>
    (t.signedWith == env.secret) &&
    (match t.exp with | none => true | some e => decide (now < e)) &&
    (match t.nbf with | none => true | some n => decide (n ≤ now))

/-- `String.prototype.split(",")` on character lists (never merges empty
parts, exactly like the JavaScript original). -/
def splitCommaAux : List Char → List Char → List (List Char)
  | [], acc => [acc.reverse]
  | c :: cs, acc =>
    if c = ',' then acc.reverse :: splitCommaAux cs [] else splitCommaAux cs (c :: acc)

/-- `String.prototype.trim`: strip whitespace from both ends. -/
def trimChars (l : List Char) : List Char :=
  ((l.dropWhile jsIsSpace).reverse.dropWhile jsIsSpace).reverse

/-- The bearer token extracted from the `sec-websocket-protocol` header:
split on commas, trim each part, take the third (missing parts become `""`
via `String(token || "")`). -/
def bearerToken (proto : Option String) : String :=
  String.mk (((splitCommaAux (proto.getD "").data []).map trimChars).getD 2 [])

/-- `BridgeServer.authOk`: verify the third subprotocol token; on any
verification failure the socket is closed with code 4001 "unauthorized".
Returns (admitted?, close action). -/
def authOk (env : AuthEnv) (now : Int) (proto : Option String) :
    Bool × Option (Nat × String) :=
  if jwtVerify env now (bearerToken proto) then (true, none)
  else (false, some (4001, "unauthorized"))

/-- Connection handler of `BridgeServer.start`: if `authOk` fails the handler
returns before `clients.add`, so the active set is unchanged; on success the
connection joins the active set with its liveness flag set to true.
Connections are identified by a `Nat` id; the Bool is the liveness flag. -/
def handleConnection (env : AuthEnv) (now : Int) (clients : List (Nat × Bool))
    (conn : Nat) (proto : Option String) :
    List (Nat × Bool) × Option (Nat × String) :=
  match authOk env now proto with
  | (true, _) => (clients ++ [(conn, true)], none)
  | (false, act) => (clients, act)

/-! ## BridgeServer: heartbeat
(`src/main/BridgeServer.ts` lines 84-99) -/

/-- One heartbeat tick over the active set: a connection whose liveness flag
is `false` is terminated and evicted; otherwise its flag is reset to `false`
and a ping probe is sent. Returns (new active set, pinged ids, terminated
ids). -/
def heartbeatTick : List (Nat × Bool) → List (Nat × Bool) × List Nat × List Nat
  | [] => ([], [], [])
  | (i, alive) :: rest =>
    let r := heartbeatTick rest
    if alive then ((i, false) :: r.1, i :: r.2.1, r.2.2)
    else (r.1, r.2.1, i :: r.2.2)

/-- Receipt of a pong from connection `i` sets its liveness flag back to true
(`ws.on("pong", () => this.connectionAlive.set(ws, true))`). -/
def pongReceived (i : Nat) (conns : List (Nat × Bool)) : List (Nat × Bool) :=
  conns.map fun c => if c.1 = i then (c.1, true) else c

/-! ## BridgeServer: command dispatch
(`src/main/BridgeServer.ts`, `handleCmd` lines 179-213) -/

/-- An inbound Command frame `{v, type:"cmd", id, name, args}`. The `args`
fields are modelled pre-extracted with the JavaScript defaulting already
applied (`String(x || "")`, `Boolean(x)`). -/
structure BridgeCommand where
  id : String
  name : String
  key : String := ""
  value : Bool := false
  tabId : String := ""
  text : String := ""
deriving DecidableEq

/-- An outbound Response frame `{v:1, type:"res", id, ok, data?, error?}`
(the `data` payload is irrelevant to the claims and omitted). -/
structure BridgeResponse where
  id : String
  ok : Bool
  error : Option String := none
deriving DecidableEq

/-- Environment of one `handleCmd` call: the outcome of each awaited
collaborator. `getPageInfoResult` is the result of `this.getPageInfo`
(which throws "No tab" when no tab exists); the `…Throws` fields are
`some message` when the corresponding awaited call raises. -/
structure CmdEnv where
  getPageInfoResult : Except String Unit
  setOfflineModeThrows : Option String
  sendChatThrows : Option String

/-- Result of dispatching one command: the Response frames sent on the
originating connection, and any close/terminate actions on it (the handler
never performs one — every path either sends an ok:true response, an
ok:false "Unknown command" response, or lands in the catch which sends an
ok:false response carrying the error message). -/
structure CmdOutcome where
  responses : List BridgeResponse
  closes : List (Nat × String)
deriving DecidableEq

/-- `BridgeServer.handleCmd`: switch on the command name; the whole body is
wrapped in try/catch and the catch sends `{id, ok:false, error}`. The
broadcast frames (`emitChat`/`emitEvent`) are fire-and-forget, internally
exception-safe, and are not Response frames, so they are not recorded here. -/
def handleCmd (env : CmdEnv) (cmd : BridgeCommand) : CmdOutcome :=
  if cmd.name = "getPageInfo" then
    match env.getPageInfoResult with
    | .ok _ => ⟨[⟨cmd.id, true, none⟩], []⟩
    | .error e => ⟨[⟨cmd.id, false, some e⟩], []⟩
  else if cmd.name = "setFeature" then
    if cmd.key = "offlineMode" then
      match env.setOfflineModeThrows with
      | some e => ⟨[⟨cmd.id, false, some e⟩], []⟩
      | none => ⟨[⟨cmd.id, true, none⟩], []⟩
    else ⟨[⟨cmd.id, true, none⟩], []⟩
  else if cmd.name = "sendChat" then
    match env.sendChatThrows with
    | some e => ⟨[⟨cmd.id, false, some e⟩], []⟩
    | none => ⟨[⟨cmd.id, true, none⟩], []⟩
  else ⟨[⟨cmd.id, false, some "Unknown command"⟩], []⟩

/-- The exception (if any) raised while handling a given command, as a
function of the environment: this is what reaches `handleCmd`'s catch. -/
def cmdFailure (env : CmdEnv) (cmd : BridgeCommand) : Option String :=
  if cmd.name = "getPageInfo" then
    match env.getPageInfoResult with
    | .ok _ => none
    | .error e => some e
  else if cmd.name = "setFeature" then
    if cmd.key = "offlineMode" then env.setOfflineModeThrows else none
  else if cmd.name = "sendChat" then env.sendChatThrows
  else none

/-! ## ModelManager: provider selection and offline mode
(`src/main/llm/ModelManager.ts`) -/

/-- The two cloud providers. -/
inductive OnlineProvider
  | openai
  | anthropic
deriving DecidableEq, Repr

/-- `LLMProvider = OnlineProvider | "apple"`. -/
inductive Provider
  | online (p : OnlineProvider)
  | apple
deriving DecidableEq, Repr

/-- A live model handle (`LanguageModel`), abstracted to its identity. -/
inductive Model
  | apple
  | online (p : OnlineProvider) (name : String)
deriving DecidableEq, Repr

/-- `DEFAULT_MODELS`. -/
def defaultModelOf : OnlineProvider → String
  | .openai => "gpt-4o-mini"
  | .anthropic => "claude-3-5-sonnet-20241022"

/-- `checkAppleAvailability` result `{available, reason}`. -/
structure AppleAvailability where
  available : Bool
  reason : String
deriving DecidableEq, Repr

/-- Startup environment of the ModelManager: the relevant `process.env`
strings, the on-device availability probe, whether
`createAppleLanguageModel` throws (and with what message), and the cloud
API keys. -/
structure MMEnv where
  offlineModeEnv : String := ""
  providerEnv : String := ""
  llmModel : Option String := none
  appleCheck : AppleAvailability
  appleCreateFails : Option String := none
  apiKeyOpenai : Option String := none
  apiKeyAnthropic : Option String := none
deriving DecidableEq, Repr

/-- The mutable fields of `ModelManager`. -/
structure MMState where
  baseOnlineProvider : OnlineProvider
  provider : Provider
  modelName : Option String
  model : Option Model
  offlineMode : Bool
  appleAvailabilityChecked : Bool
  appleAvailable : Bool
  appleUnavailableReason : Option String
deriving DecidableEq, Repr

/-- ASCII lower-casing of a whole string (`toLowerCase`). -/
def lowerStr (s : String) : String := String.mk (lowerChars s)

/-- `getBaseOnlineProvider`: `LLM_PROVIDER=anthropic` selects anthropic,
anything else defaults to openai. -/
def getBaseOnlineProvider (env : MMEnv) : OnlineProvider :=
  if lowerStr env.providerEnv = "anthropic" then .anthropic else .openai

/-- `getInitialOfflineMode`: `OFFLINE_MODE` of "1"/"true" or
`LLM_PROVIDER=apple` starts in offline mode. -/
def getInitialOfflineMode (env : MMEnv) : Bool :=
  let f := lowerStr env.offlineModeEnv
  let p := lowerStr env.providerEnv
  f = "1" || f = "true" || p = "apple"

/-- `getModelName`: null for the apple provider, otherwise `LLM_MODEL` or the
default for the base online provider. -/
def getModelNameFor (env : MMEnv) (provider : Provider) (base : OnlineProvider) :
    Option String :=
  if provider = Provider.apple then none
  else some (env.llmModel.getD (defaultModelOf base))

/-- `getApiKey`: the credential of the base online provider. -/
def getApiKey (env : MMEnv) (base : OnlineProvider) : Option String :=
  match base with
  | .openai => env.apiKeyOpenai
  | .anthropic => env.apiKeyAnthropic

/-- The `ModelManager` constructor (no model is created yet; `init` does
that). -/
def mmNew (env : MMEnv) : MMState :=
  let base := getBaseOnlineProvider env
  let off := getInitialOfflineMode env
  let prov := if off then Provider.apple else Provider.online base
  { baseOnlineProvider := base
    provider := prov
    modelName := getModelNameFor env prov base
    model := none
    offlineMode := off
    appleAvailabilityChecked := false
    appleAvailable := false
    appleUnavailableReason := none }

/-- `ModelManager.initializeModel`: for the apple provider run the (cached)
availability check, record its reason (`availability.reason || null`), and
create the on-device model, downgrading to unavailable with a
`load-failed:` reason if creation throws; for online providers require an
API key and instantiate the provider model. -/
def initializeModel (env : MMEnv) (s : MMState) : MMState :=
  if s.provider = Provider.apple then
    let s1 :=
      if ¬s.appleAvailabilityChecked then
        { s with
          appleAvailable := env.appleCheck.available
          appleUnavailableReason :=
            if env.appleCheck.reason = "" then none else some env.appleCheck.reason
          appleAvailabilityChecked := true }
      else s
    if ¬s1.appleAvailable then { s1 with model := none }
    else
      match env.appleCreateFails with
      | some e =>
        { s1 with
          model := none
          appleAvailable := false
          appleUnavailableReason := some ("load-failed:" ++ e) }
      | none => { s1 with model := some Model.apple }
  else
    if (getApiKey env s.baseOnlineProvider).isNone then { s with model := none }
    else
      { s with
        model := some (Model.online s.baseOnlineProvider
          (s.modelName.getD (defaultModelOf s.baseOnlineProvider))) }

/-- `ModelManager.init`. -/
def mmInit (env : MMEnv) (s : MMState) : MMState := initializeModel env s

/-- `ModelManager.setOfflineMode(enabled)`: early-returns the current mode
when it already equals the request; on `enabled=true` tries the apple
provider and falls back to the online provider (returning false) when no
model could be created; on `enabled=false` reinitialises the online
provider and returns false. -/
def setOfflineMode (env : MMEnv) (s : MMState) (enabled : Bool) :
    Bool × MMState :=
  if s.offlineMode = enabled then (s.offlineMode, s)
  else if enabled then
    let s1 := { s with provider := Provider.apple }
    let s1 := { s1 with modelName := getModelNameFor env s1.provider s1.baseOnlineProvider }
    let s2 := initializeModel env s1
    if s2.model.isNone then
      let s3 := { s2 with provider := Provider.online s2.baseOnlineProvider }
      let s3 := { s3 with modelName := getModelNameFor env s3.provider s3.baseOnlineProvider }
      let s4 := initializeModel env s3
      (false, { s4 with offlineMode := false })
    else (true, { s2 with offlineMode := true })
  else
    let s1 := { s with provider := Provider.online s.baseOnlineProvider }
    let s1 := { s1 with modelName := getModelNameFor env s1.provider s1.baseOnlineProvider }
    let s2 := initializeModel env s1
    (false, { s2 with offlineMode := false })

/-! ## MessageStore: conversation log and streaming slot
(`src/main/chat/MessageStore.ts`) -/

/-- Message roles. -/
inductive Role
  | system
  | user
  | assistant
deriving DecidableEq, Repr

/-- A conversation message; the streaming protocol only ever handles string
content. -/
structure ChatMsg where
  role : Role
  content : String
deriving DecidableEq, Repr

/-- The `MessageStore` fields: the ordered log and the index of the single
open streaming slot. -/
structure StoreState where
  messages : List ChatMsg
  streamingIndex : Option Nat
deriving DecidableEq, Repr

/-- `MessageStore.addUser`. -/
def addUser (s : StoreState) (content : String) : StoreState :=
  { s with messages := s.messages ++ [⟨Role.user, content⟩] }

/-- `MessageStore.addAssistant`. -/
def addAssistant (s : StoreState) (content : String) : StoreState :=
  { s with messages := s.messages ++ [⟨Role.assistant, content⟩] }

/-- `MessageStore.beginStream`: remember the index of the new slot and push
an assistant message holding the first chunk. -/
def beginStream (s : StoreState) (firstChunk : String) : StoreState :=
  { messages := s.messages ++ [⟨Role.assistant, firstChunk⟩]
    streamingIndex := some s.messages.length }

/-- `MessageStore.appendStream`: with no open slot this self-heals by calling
`beginStream`; otherwise the slot message is replaced by an assistant message
whose content is the previous content with the chunk appended. (In the
source the slot index is always in range; out-of-range reads are modelled
total via `getD`.) -/
def appendStream (s : StoreState) (chunk : String) : StoreState :=
  match s.streamingIndex with
  | none => beginStream s chunk
  | some i =>
    let prev := (s.messages.getD i ⟨Role.assistant, ""⟩).content
    { s with messages := s.messages.set i ⟨Role.assistant, prev ++ chunk⟩ }

/-- `MessageStore.endStream`: close the slot. -/
def endStream (s : StoreState) : StoreState :=
  { s with streamingIndex := none }

/-! ## LLMClient: deterministic "what page am I on" shortcut and one chat turn
(`src/main/LLMClient.ts`, `sendChatMessage` lines 192-313,
`detectWhatPageQuestion` lines 470-488) -/

/-- `LLMClient.detectWhatPageQuestion`: lower-case the text and test the
eight hand-written regular expressions. -/
def detectWhatPageQuestion (text : String) : Bool :=
  let l := lowerChars text
  findToks ["what".data, "page".data, "am".data, "i".data, "on".data] l ||
  findToks ["what".data, "page".data, "am".data, "i".data, "on?".data] l ||
  findToksWordEnd ["what".data, "page".data, "am".data, "i".data, "on".data] l ||
  findToks ["what".data, "page".data, "is".data, "this".data] l ||
  findToks ["which".data, "page".data, "am".data, "i".data, "on".data] l ||
  findToks ["what".data, "site".data, "am".data, "i".data, "on".data] l ||
  findToks ["what".data, "url".data, "am".data, "i".data, "on".data] l ||
  findToks ["what".data, "apge".data, "am".data, "i".data, "on".data] l

/-- Match of `/https?:\/\/\S+/i` at the head of `s`: returns the length of
the matched text. -/
def urlAt (s : List Char) : Option Nat :=
  match litAtCI "http".data s with
  | none => none
  | some s1 =>
    let sLen : Nat :=
      match s1 with
      | c :: _ => if jsToLower c = 's' then 1 else 0
      | [] => 0
    let s2 := s1.drop sLen
    match litAtCI "://".data s2 with
    | none => none
    | some s3 =>
      let body := s3.takeWhile fun ch => jsIsSpace ch = false
      if body.length = 0 then none else some (4 + sLen + 3 + body.length)

/-- First match of `/https?:\/\/\S+/i` in the character list. -/
def findUrlChars : List Char → Option (List Char)
  | [] => none
  | c :: cs =>
    match urlAt (c :: cs) with
    | some n => some ((c :: cs).take n)
    | none => findUrlChars cs

/-- `userText.match(/https?:\/\/\S+/i)?.[0]`. -/
def findUrl (s : String) : Option String := (findUrlChars s.data).map String.mk

/-- `/(\bopen\b|\bvisit\b|\bgo to\b|\bnavigate\b)/i.test(userText)`. -/
def wantsOpen (text : String) : Bool :=
  let l := lowerChars text
  wordLitFrom "open".data false l || wordLitFrom "visit".data false l ||
  wordLitFrom "go to".data false l || wordLitFrom "navigate".data false l

/-- The active tab `{title, url}` as seen by the shortcut. -/
structure TabInfo where
  title : String
  url : String
deriving DecidableEq, Repr

/-- The reply of the deterministic shortcut:
`` `You are on: ${active.title || "(untitled)"} — ${active.url || "(no url)"}` ``. -/
def whatPageReply (tab : Option TabInfo) : String :=
  match tab with
  | some t =>
    "You are on: " ++ (if t.title = "" then "(untitled)" else t.title) ++
    " — " ++ (if t.url = "" then "(no url)" else t.url)
  | none => "There is no active tab right now."

/-- Observable events of one `sendChatMessage` turn, in emission order. -/
inductive TurnEvent
  | userAdded (text : String)
  | assistantAdded (text : String)
  | errorSent (text : String)
  | broadcastOffline (enabled : Bool)
  | openedUrl (url : String)
  | providerCall
  | followupCall
deriving DecidableEq, Repr

/-- Environment of one chat turn: the synced ModelManager state (`this.model`
/ `this.provider` mirror it; `this.appleAvailable` is `!!this.model` after
`syncFromManager`), the startup environment, the connectivity probe result,
the active tab, and the abstract outcome of the generation call
(`finalText` and whether a tool recorded a `lastToolResult`). -/
structure TurnEnv where
  menv : MMEnv
  mm : MMState
  online : Bool
  activeTab : Option TabInfo
  genText : String
  genToolResult : Bool

/-- `LLMClient.sendChatMessage` (success path; a thrown generation error is
routed to `handleStreamError`, modelled separately): append the user
message, preflight the online provider (auto-switch to offline on missing
key or failed connectivity probe), refuse when apple is selected but has no
model, answer the deterministic page question directly, refuse when no
model is configured, intercept explicit open-URL requests on apple, and
otherwise run one generation call (plus the tool-free follow-up when the
call produced no text but a tool recorded a result). The message
bookkeeping of `openUrlAndSummarize` happens on a legacy message list and
is abstracted to the `openedUrl` event. -/
def sendChatMessage (env : TurnEnv) (text : String) : List TurnEvent × MMState :=
  let evs0 := [TurnEvent.userAdded text]
  let pre :=
    if env.mm.provider ≠ Provider.apple then
      if (getApiKey env.menv env.mm.baseOnlineProvider).isNone then
        let r := setOfflineMode env.menv env.mm true
        (r.2, if r.1 then [TurnEvent.broadcastOffline true] else [])
      else if env.online = false then
        let r := setOfflineMode env.menv env.mm true
        (r.2, if r.1 then [TurnEvent.broadcastOffline true] else [])
      else (env.mm, ([] : List TurnEvent))
    else (env.mm, [])
  let mm1 := pre.1
  let evs1 := evs0 ++ pre.2
  let appleAvailable := mm1.model.isSome
  if mm1.provider = Provider.apple ∧ (mm1.model.isNone || !appleAvailable) = true then
    let err := "Apple on-device AI is unavailable. Ensure macOS with Apple Intelligence is enabled."
    (evs1 ++ [TurnEvent.assistantAdded err, TurnEvent.errorSent err], mm1)
  else if detectWhatPageQuestion text then
    (evs1 ++ [TurnEvent.assistantAdded (whatPageReply env.activeTab)], mm1)
  else if mm1.model.isNone then
    let message :=
      if mm1.provider = Provider.apple then "Apple on-device AI is unavailable."
      else "LLM service is not configured. Please add your API key to the .env file."
    (evs1 ++ [TurnEvent.errorSent message], mm1)
  else if mm1.provider = Provider.apple ∧ (findUrl text).isSome ∧ wantsOpen text = true then
    (evs1 ++ [TurnEvent.openedUrl ((findUrl text).getD "")], mm1)
  else
    let evs2 := evs1 ++ [TurnEvent.providerCall]
    if env.genText.trim = "" ∧ env.genToolResult = true then
      (evs2 ++ [TurnEvent.followupCall], mm1)
    else (evs2, mm1)

/-! ## LLMClient: stream-error handling and the locale fallback
(`src/main/LLMClient.ts`, `handleStreamError` lines 563-616,
`getErrorMessage` lines 618-651, guard field line 68) -/

/-- `LLMClient.getErrorMessage`: classify a provider error into a user-facing
message. `isError` models `error instanceof Error`. -/
def getErrorMessage (isError : Bool) (msg : String) : String :=
  if !isError then "An unexpected error occurred. Please try again."
  else
    let m := lowerStr msg
    if containsSub m "unsupported language" || containsSub m "unsupported locale" ||
        containsSub m "locale was used" then
      "Apple on-device AI isn\x27t available for your current macOS language/locale. Set System Language to a supported language (e.g., English) and ensure Apple Intelligence is enabled. Then retry."
    else if containsSub m "401" || containsSub m "unauthorized" then
      "Authentication error: Please check your API key in the .env file."
    else if containsSub m "429" || containsSub m "rate limit" then
      "Rate limit exceeded. Please try again in a few moments."
    else if containsSub m "network" || containsSub m "fetch" || containsSub m "econnrefused" then
      "Network error: Please check your internet connection."
    else if containsSub m "timeout" then
      "Request timeout: The service took too long to respond. Please try again."
    else "Sorry, I encountered an error while processing your request. Please try again."

/-- The guard regex of the fallback:
`/unsupported language|unsupported locale|locale was used/i.test(message)`. -/
def isLocaleError (msg : String) : Bool :=
  let m := lowerStr msg
  containsSub m "unsupported language" || containsSub m "unsupported locale" ||
  containsSub m "locale was used"

/-- The `LLMClient` fields relevant to the fallback: the synced ModelManager
state and the one-shot guard `didAppleLocaleFallback` (initialised false in
the constructor and never reset anywhere in the class). -/
structure ClientState where
  mm : MMState
  didAppleLocaleFallback : Bool
deriving DecidableEq, Repr

/-- Observable events of one `handleStreamError` call. -/
inductive HEvent
  | assistantAdded (text : String)
  | errorSent (text : String)
  | broadcastOffline (enabled : Bool)
  | retryOnline
deriving DecidableEq, Repr

/-- `LLMClient.handleStreamError`: when the apple provider reported an
unsupported-locale error and the one-shot guard is clear, set the guard,
announce the switch, call `setOfflineMode(false)` (broadcasting when it
returned false and the provider left apple), and retry the generation once
against the online model — sending the classified error instead when no
model is configured, when the retry produced no text, or when the retry
itself threw (`retryOutcome = none`). In every other case the classified
error is sent and the state is untouched. -/
def handleStreamError (menv : MMEnv) (st : ClientState) (errMsg : String)
    (retryOutcome : Option String) : List HEvent × ClientState :=
  let errorMessage := getErrorMessage true errMsg
  if st.mm.provider = Provider.apple ∧ st.didAppleLocaleFallback = false ∧
      isLocaleError errMsg = true then
    let st1 : ClientState := { st with didAppleLocaleFallback := true }
    let evs0 := [HEvent.assistantAdded
      "Apple on-device AI is unavailable for this locale. Switching to online model..."]
    let r := setOfflineMode menv st1.mm false
    let st2 : ClientState := { st1 with mm := r.2 }
    let evs1 := evs0 ++
      (if r.1 = false ∧ r.2.provider ≠ Provider.apple then [HEvent.broadcastOffline false]
       else [])
    if r.2.model.isNone then (evs1 ++ [HEvent.errorSent errorMessage], st2)
    else
      match retryOutcome with
      | none => (evs1 ++ [HEvent.retryOnline, HEvent.errorSent errorMessage], st2)
      | some t =>
        (evs1 ++ [HEvent.retryOnline] ++
          (if t = "" then [HEvent.errorSent errorMessage] else []), st2)
  else ([HEvent.errorSent errorMessage], st)

/-! ## Tool Executor (`src/main/llm/Tools.ts`) -/

/-- The `PageInfo` a tool returns: `{title, url, summary, links}` with links
as (text, href) pairs. -/
structure PageInfoRec where
  title : Option String
  url : Option String
  summary : String
  links : List (String × String)
deriving DecidableEq, Repr

/-- Events a tool invocation emits to the bridge. The SDK (`buildTools`)
toolResult payload is `{name, result: {title, url, linksCount}}`; the native
(`buildNativeTools`) payload additionally carries a 300-character summary
slice and at most 8 links. -/
inductive ToolEvt
  | toolCall (name : String)
  | toolResultSdk (name : String) (linksCount : Nat)
  | toolResultNative (name : String) (summaryShort : String)
      (links : List (String × String)) (linksCount : Nat)
deriving DecidableEq, Repr

/-- What a tool invocation returns to the model: the page info on success,
or the structured `{error}` object on failure — never a raised exception. -/
inductive ToolOut
  | info (i : PageInfoRec)
  | errObj (message : String)
deriving DecidableEq, Repr

/-- `summary.slice(0, 300)`, on character lists to keep lengths literal. -/
def summarySlice (s : String) (n : Nat) : String := String.mk (s.data.take n)

/-- `buildTools.open_url.execute`: emit `toolCall`, run the inspector
(`res` is its outcome), emit the capped `toolResult` on success, convert a
failure into `{error}`. -/
def sdkOpenUrl (res : Except String PageInfoRec) : List ToolEvt × ToolOut :=
  match res with
  | .ok info =>
    ([ToolEvt.toolCall "open_url", ToolEvt.toolResultSdk "open_url" info.links.length],
     ToolOut.info info)
  | .error e => ([ToolEvt.toolCall "open_url"], ToolOut.errObj e)

/-- `buildTools.get_page_info.execute`: run the inspector and emit only a
`toolResult` on success (the source emits no `toolCall` for this tool);
convert a failure into `{error}` with no frame at all. -/
def sdkGetPageInfo (res : Except String PageInfoRec) : List ToolEvt × ToolOut :=
  match res with
  | .ok info =>
    ([ToolEvt.toolResultSdk "get_page_info" info.links.length], ToolOut.info info)
  | .error e => ([], ToolOut.errObj e)

/-- `buildNativeTools` `open_url` handler: as the SDK one but with
`summaryShort = summary.slice(0,300)` and `links.slice(0,8)` in the
`toolResult` payload. -/
def nativeOpenUrl (res : Except String PageInfoRec) : List ToolEvt × ToolOut :=
  match res with
  | .ok info =>
    ([ToolEvt.toolCall "open_url",
      ToolEvt.toolResultNative "open_url" (summarySlice info.summary 300)
        (info.links.take 8) info.links.length],
     ToolOut.info info)
  | .error e => ([ToolEvt.toolCall "open_url"], ToolOut.errObj e)

/-- `buildNativeTools` `get_page_info` handler: capped `toolResult` on
success, no `toolCall` frame on any path, `{error}` on failure. -/
def nativeGetPageInfo (res : Except String PageInfoRec) : List ToolEvt × ToolOut :=
  match res with
  | .ok info =>
    ([ToolEvt.toolResultNative "get_page_info" (summarySlice info.summary 300)
        (info.links.take 8) info.links.length],
     ToolOut.info info)
  | .error e => ([], ToolOut.errObj e)

/-- Is an event a `toolCall` frame? -/
def isToolCallEvt : ToolEvt → Bool
  | .toolCall _ => true
  | _ => false

/-! ## Concrete instances used to evaluate the theorems -/

/-- A handshake environment whose only decodable token is `"tok"`, signed
with the default secret and carrying `exp = 5`. -/
def authEnvEx : AuthEnv :=
  ⟨fun s => if s = "tok" then some ⟨"dev-secret", some 5, none⟩ else none, "dev-secret"⟩

/-- Startup environment reaching the already-offline corner: `OFFLINE_MODE=1`
with the on-device availability check reporting unavailable. -/
def envC5 : MMEnv := { offlineModeEnv := "1", appleCheck := ⟨false, "x"⟩, apiKeyOpenai := some "k" }

/-- The ModelManager state after the constructor and `init()` under `envC5`:
offline mode enabled, apple provider selected, no model, availability
checked and false. -/
def stC5 : MMState := mmInit envC5 (mmNew envC5)

/-- Startup environment starting online (default) with the on-device check
reporting unavailable. -/
def envC5b : MMEnv := { appleCheck := ⟨false, "nope"⟩, apiKeyOpenai := some "k" }

/-- The corresponding initial (online) ModelManager state. -/
def stC5b : MMState := mmInit envC5b (mmNew envC5b)

/-- Environment where the on-device provider is genuinely available and an
OpenAI key is configured. -/
def envApple : MMEnv := { appleCheck := ⟨true, ""⟩, apiKeyOpenai := some "k" }

/-- A synced client state on the apple provider with a live on-device model. -/
def stApple : MMState :=
  { baseOnlineProvider := .openai, provider := .apple, modelName := none,
    model := some .apple, offlineMode := true, appleAvailabilityChecked := true,
    appleAvailable := true, appleUnavailableReason := none }

/-- First turn hitting an unsupported-locale failure (guard clear). -/
def turn1 : List HEvent × ClientState :=
  handleStreamError envApple ⟨stApple, false⟩ "unsupported locale" (some "ok")

/-- The client after the user re-enables offline mode for the next turn: the
provider is back on apple but the one-shot guard is still set. -/
def stTurn2 : ClientState :=
  ⟨(setOfflineMode envApple turn1.2.mm true).2, turn1.2.didAppleLocaleFallback⟩

/-- Second turn hitting the same unsupported-locale failure. -/
def turn2 : List HEvent × ClientState :=
  handleStreamError envApple stTurn2 "unsupported locale" (some "ok")

/-- A sample successful page-inspection result. -/
def infoEx : PageInfoRec :=
  ⟨some "T", some "https://e", "sum", [("a", "https://a")]⟩

/-- A synced online ModelManager state with a live OpenAI model. -/
def mmOnline : MMState :=
  { baseOnlineProvider := .openai, provider := .online .openai,
    modelName := some "gpt-4o-mini", model := some (.online .openai "gpt-4o-mini"),
    offlineMode := false, appleAvailabilityChecked := false,
    appleAvailable := false, appleUnavailableReason := none }

/-- A chat-turn environment: online provider configured and reachable, with
the Example active tab. -/
def turnEnvEx : TurnEnv :=
  { menv := envApple, mm := mmOnline, online := true,
    activeTab := some ⟨"Example", "https://example.com"⟩,
    genText := "", genToolResult := false }

/-! ## Theorems -/

/-- C10: for every environment and every starting state, `setOfflineMode(false)`
returns false — also when the switch to the online provider succeeds and a
model handle is created — so success of the switch is only observable through
the resulting provider state. -/
theorem setOfflineMode_false_always_returns_false (env : MMEnv) (s : MMState) :
    (setOfflineMode env s false).1 = false := by
  unfold setOfflineMode
  by_cases h : s.offlineMode = false <;> simp [h]

/-- Every connection surviving a heartbeat tick has its liveness flag reset
to false. -/
theorem heartbeatTick_flags_false (conns : List (Nat × Bool)) :
    ∀ x ∈ (heartbeatTick conns).1, x.2 = false := by
  induction conns with
  | nil => intro x hx; simp [heartbeatTick] at hx
  | cons c rest ih =>
    intro x hx
    obtain ⟨i, alive⟩ := c
    cases alive with
    | false => exact ih x (by simpa [heartbeatTick] using hx)
    | true =>
      simp only [heartbeatTick, if_pos] at hx
      rcases List.mem_cons.mp hx with h | h
      · simp [h]
      · exact ih x h

/-- A tick over a set whose flags are all false evicts everything. -/
theorem heartbeatTick_all_false (conns : List (Nat × Bool))
    (h : ∀ x ∈ conns, x.2 = false) : (heartbeatTick conns).1 = [] := by
  induction conns with
  | nil => rfl
  | cons c rest ih =>
    obtain ⟨i, alive⟩ := c
    have hc : alive = false := h (i, alive) (by simp)
    subst hc
    simpa [heartbeatTick] using ih fun x hx => h x (by simp [hx])

/-- A live connection survives the tick with its flag reset and is probed. -/
theorem heartbeatTick_live_survives (conns : List (Nat × Bool)) (i : Nat)
    (h : (i, true) ∈ conns) :
    (i, false) ∈ (heartbeatTick conns).1 ∧ i ∈ (heartbeatTick conns).2.1 := by
  induction conns with
  | nil => simp at h
  | cons c rest ih =>
    obtain ⟨j, alive⟩ := c
    rcases List.mem_cons.mp h with h1 | h1
    · rw [Prod.mk.injEq] at h1
      obtain ⟨rfl, rfl⟩ := h1
      simp [heartbeatTick]
    · have := ih h1
      cases alive <;> simp [heartbeatTick, this.1, this.2]

/-- Only connections that were live before the tick survive it. -/
theorem heartbeatTick_survivor_was_live (conns : List (Nat × Bool)) (i : Nat) (b : Bool)
    (h : (i, b) ∈ (heartbeatTick conns).1) : b = false ∧ (i, true) ∈ conns := by
  induction conns with
  | nil => simp [heartbeatTick] at h
  | cons c rest ih =>
    obtain ⟨j, alive⟩ := c
    cases alive with
    | false =>
      have := ih (by simpa [heartbeatTick] using h)
      exact ⟨this.1, by simp [this.2]⟩
    | true =>
      simp only [heartbeatTick, if_pos] at h
      rcases List.mem_cons.mp h with h | h
      · rw [Prod.mk.injEq] at h
        obtain ⟨rfl, rfl⟩ := h
        simp
      · have := ih h
        exact ⟨this.1, by simp [this.2]⟩

/-- A connection whose flag is already false at the tick is terminated. -/
theorem heartbeatTick_dead_terminated (conns : List (Nat × Bool)) (i : Nat)
    (h : (i, false) ∈ conns) : i ∈ (heartbeatTick conns).2.2 := by
  induction conns with
  | nil => simp at h
  | cons c rest ih =>
    obtain ⟨j, alive⟩ := c
    rcases List.mem_cons.mp h with h1 | h1
    · rw [Prod.mk.injEq] at h1
      obtain ⟨rfl, rfl⟩ := h1
      simp [heartbeatTick]
    · cases alive <;> simp [heartbeatTick, ih h1]

/-- C3: at every heartbeat tick a connection with a false liveness flag is
terminated and evicted, a live one is probed with its flag reset to false,
and a pong sets the flag back to true — hence a connection that never pongs
is gone after two consecutive ticks (here: two no-pong ticks empty any
active set). -/
theorem heartbeat_eviction_within_two_probes (conns : List (Nat × Bool)) (i : Nat) :
    (heartbeatTick (heartbeatTick conns).1).1 = [] ∧
    ((i, true) ∈ conns →
      (i, false) ∈ (heartbeatTick conns).1 ∧ i ∈ (heartbeatTick conns).2.1) ∧
    ((i, false) ∈ conns → i ∈ (heartbeatTick conns).2.2) ∧
    (∀ b, (i, b) ∈ (heartbeatTick conns).1 → b = false ∧ (i, true) ∈ conns) ∧
    (∀ b, (i, b) ∈ conns → (i, true) ∈ pongReceived i conns) := by
  refine ⟨heartbeatTick_all_false _ (heartbeatTick_flags_false conns),
    heartbeatTick_live_survives conns i,
    heartbeatTick_dead_terminated conns i,
    fun b h => heartbeatTick_survivor_was_live conns i b h,
    fun b h => ?_⟩
  have : (i, true) = (fun c : Nat × Bool => if c.1 = i then (c.1, true) else c) (i, b) := by
    simp
  rw [pongReceived, this]
  exact List.mem_map_of_mem _ h

/-- Witness for C3 at a concrete active set. -/
theorem heartbeat_eviction_within_two_probes_witness :
    (heartbeatTick (heartbeatTick [(0, true), (1, false)]).1).1 = [] ∧
    ((0, true) ∈ [(0, true), (1, false)] →
      (0, false) ∈ (heartbeatTick [(0, true), (1, false)]).1 ∧
      0 ∈ (heartbeatTick [(0, true), (1, false)]).2.1) ∧
    ((0, false) ∈ [(0, true), (1, false)] →
      0 ∈ (heartbeatTick [(0, true), (1, false)]).2.2) ∧
    (∀ b, (0, b) ∈ (heartbeatTick [(0, true), (1, false)]).1 →
      b = false ∧ (0, true) ∈ [(0, true), (1, false)]) ∧
    (∀ b, (0, b) ∈ [(0, true), (1, false)] →
      (0, true) ∈ pongReceived 0 [(0, true), (1, false)]) :=
  heartbeat_eviction_within_two_probes [(0, true), (1, false)] 0

/-- Reading at the index just past a prefix returns the appended element. -/
theorem getD_append_length {α : Type} (pre : List α) (m d : α) :
    (pre ++ [m]).getD pre.length d = m := by
  induction pre with
  | nil => rfl
  | cons a l ih => simp [ih]

/-- Writing at the index just past a prefix replaces the appended element. -/
theorem set_append_length {α : Type} (pre : List α) (m x : α) :
    (pre ++ [m]).set pre.length x = pre ++ [x] := by
  induction pre with
  | nil => rfl
  | cons a l ih => simp [List.set, ih]

/-- Folding `appendStream` over chunks extends the open slot in place. -/
theorem appendStream_foldl (cs : List String) :
    ∀ (pre : List ChatMsg) (acc : String),
    List.foldl appendStream ⟨pre ++ [⟨Role.assistant, acc⟩], some pre.length⟩ cs =
      ⟨pre ++ [⟨Role.assistant, cs.foldl (· ++ ·) acc⟩], some pre.length⟩ := by
  induction cs with
  | nil => intro pre acc; rfl
  | cons c rest ih =>
    intro pre acc
    have h1 : appendStream ⟨pre ++ [⟨Role.assistant, acc⟩], some pre.length⟩ c =
        ⟨pre ++ [⟨Role.assistant, acc ++ c⟩], some pre.length⟩ := by
      simp [appendStream, getD_append_length, set_append_length]
    rw [List.foldl_cons, h1, ih]
    rfl

/-- C6: after `beginStream c0`, `appendStream c1 … cN` (folded in call
order) and `endStream`, the log is the old log with exactly one new message
appended: role assistant, content the concatenation of all chunks in call
order; every pre-existing message is untouched. -/
theorem stream_concatenates_chunks (s : StoreState) (c0 : String) (cs : List String) :
    endStream (List.foldl appendStream (beginStream s c0) cs) =
      ⟨s.messages ++ [⟨Role.assistant, cs.foldl (· ++ ·) c0⟩], none⟩ := by
  show endStream (List.foldl appendStream
    ⟨s.messages ++ [⟨Role.assistant, c0⟩], some s.messages.length⟩ cs) = _
  rw [appendStream_foldl]
  rfl

/-- C1: every well-formed Command dispatched to `handleCmd` produces exactly
one Response on the same connection, correlated by id: `ok=true` exactly
when the name is known and no exception was raised, and any exception turns
into `ok=false` carrying the error message. -/
theorem one_response_per_command (env : CmdEnv) (cmd : BridgeCommand) :
    ∃ r, (handleCmd env cmd).responses = [r] ∧ r.id = cmd.id ∧
      (r.ok = true ↔
        ((cmd.name = "getPageInfo" ∨ cmd.name = "setFeature" ∨ cmd.name = "sendChat") ∧
          cmdFailure env cmd = none)) ∧
      (∀ e, cmdFailure env cmd = some e → r.ok = false ∧ r.error = some e) := by
  by_cases h1 : cmd.name = "getPageInfo"
  · cases hres : env.getPageInfoResult with
    | ok u =>
      exact ⟨⟨cmd.id, true, none⟩, by simp [handleCmd, h1, hres], rfl,
        by simp [cmdFailure, h1, hres], by simp [cmdFailure, h1, hres]⟩
    | error e =>
      exact ⟨⟨cmd.id, false, some e⟩, by simp [handleCmd, h1, hres], rfl,
        by simp [cmdFailure, h1, hres], by simp [cmdFailure, h1, hres]⟩
  · by_cases h2 : cmd.name = "setFeature"
    · by_cases hk : cmd.key = "offlineMode"
      · cases hres : env.setOfflineModeThrows with
        | none =>
          exact ⟨⟨cmd.id, true, none⟩, by simp [handleCmd, h1, h2, hk, hres], rfl,
            by simp [cmdFailure, h1, h2, hk, hres], by simp [cmdFailure, h1, h2, hk, hres]⟩
        | some e =>
          exact ⟨⟨cmd.id, false, some e⟩, by simp [handleCmd, h1, h2, hk, hres], rfl,
            by simp [cmdFailure, h1, h2, hk, hres], by simp [cmdFailure, h1, h2, hk, hres]⟩
      · exact ⟨⟨cmd.id, true, none⟩, by simp [handleCmd, h1, h2, hk], rfl,
          by simp [cmdFailure, h1, h2, hk], by simp [cmdFailure, h1, h2, hk]⟩
    · by_cases h3 : cmd.name = "sendChat"
      · cases hres : env.sendChatThrows with
        | none =>
          exact ⟨⟨cmd.id, true, none⟩, by simp [handleCmd, h1, h2, h3, hres], rfl,
            by simp [cmdFailure, h1, h2, h3, hres], by simp [cmdFailure, h1, h2, h3, hres]⟩
        | some e =>
          exact ⟨⟨cmd.id, false, some e⟩, by simp [handleCmd, h1, h2, h3, hres], rfl,
            by simp [cmdFailure, h1, h2, h3, hres], by simp [cmdFailure, h1, h2, h3, hres]⟩
      · exact ⟨⟨cmd.id, false, some "Unknown command"⟩,
          by simp [handleCmd, h1, h2, h3], rfl,
          by simp [h1, h2, h3], by simp [cmdFailure, h1, h2, h3]⟩

/-- Witness for C1 at a concrete command whose handler throws. -/
theorem one_response_per_command_witness :
    ∃ r, (handleCmd ⟨Except.error "No tab", none, none⟩
        ⟨"cmd-1", "getPageInfo", "", false, "", ""⟩).responses = [r] ∧
      r.id = "cmd-1" ∧
      (r.ok = true ↔
        ((("getPageInfo" : String) = "getPageInfo" ∨ ("getPageInfo" : String) = "setFeature" ∨
            ("getPageInfo" : String) = "sendChat") ∧
          cmdFailure ⟨Except.error "No tab", none, none⟩
            ⟨"cmd-1", "getPageInfo", "", false, "", ""⟩ = none)) ∧
      (∀ e, cmdFailure ⟨Except.error "No tab", none, none⟩
          ⟨"cmd-1", "getPageInfo", "", false, "", ""⟩ = some e →
        r.ok = false ∧ r.error = some e) :=
  one_response_per_command ⟨Except.error "No tab", none, none⟩
    ⟨"cmd-1", "getPageInfo", "", false, "", ""⟩

/-- C4: a Command whose name is none of getPageInfo/setFeature/sendChat gets
exactly the `ok=false` "Unknown command" Response with a non-empty error
string, and the handler performs no close or terminate on the connection. -/
theorem unknown_command_keeps_connection (env : CmdEnv) (cmd : BridgeCommand)
    (h1 : cmd.name ≠ "getPageInfo") (h2 : cmd.name ≠ "setFeature")
    (h3 : cmd.name ≠ "sendChat") :
    (handleCmd env cmd).responses = [⟨cmd.id, false, some "Unknown command"⟩] ∧
    ("Unknown command" : String) ≠ "" ∧
    (handleCmd env cmd).closes = [] := by
  refine ⟨by simp [handleCmd, h1, h2, h3], by decide, by simp [handleCmd, h1, h2, h3]⟩

/-- Witness for C4 at a concrete unknown command. -/
theorem unknown_command_keeps_connection_witness :
    (handleCmd ⟨Except.ok (), none, none⟩
        ⟨"cmd-2", "bogus", "", false, "", ""⟩).responses =
      [⟨"cmd-2", false, some "Unknown command"⟩] ∧
    ("Unknown command" : String) ≠ "" ∧
    (handleCmd ⟨Except.ok (), none, none⟩
        ⟨"cmd-2", "bogus", "", false, "", ""⟩).closes = [] :=
  unknown_command_keeps_connection ⟨Except.ok (), none, none⟩
    ⟨"cmd-2", "bogus", "", false, "", ""⟩ (by decide) (by decide) (by decide)

/-- C2: a handshake whose bearer token fails verification is answered by
`close(4001, "unauthorized")` and the connection is never added to the
active set; in particular a decodable token whose `exp` lies in the past
fails verification. -/
theorem unauthorized_connection_never_admitted (env : AuthEnv) (now : Int)
    (clients : List (Nat × Bool)) (conn : Nat) (proto : Option String) :
    (jwtVerify env now (bearerToken proto) = false →
      handleConnection env now clients conn proto =
        (clients, some (4001, "unauthorized"))) ∧
    (∀ t e, env.decode (bearerToken proto) = some t → t.exp = some e → e ≤ now →
      jwtVerify env now (bearerToken proto) = false) := by
  constructor
  · intro h
    simp [handleConnection, authOk, h]
  · intro t e ht he hle
    simp [jwtVerify, ht, he, not_lt.mpr hle]

/-- Witness for C2: an expired token (`exp = 5`, `now = 10`) presented as the
third subprotocol part is rejected and the active set stays empty. -/
theorem unauthorized_connection_never_admitted_witness :
    handleConnection authEnvEx 10 [] 0 (some "v1, client, tok") =
      ([], some (4001, "unauthorized")) :=
  (unauthorized_connection_never_admitted authEnvEx 10 [] 0 (some "v1, client, tok")).1
    ((unauthorized_connection_never_admitted authEnvEx 10 [] 0 (some "v1, client, tok")).2
      ⟨"dev-secret", some 5, none⟩ 5 (by decide) rfl (by decide))

/-- C5 counterexample: starting from the reachable state produced by
`OFFLINE_MODE=1` with the availability check reporting unavailable (offline
mode already enabled, apple provider, no model), `setOfflineMode(true)` hits
the early-return guard (`offlineMode === enabled`), returns `true` (not
false) and leaves the provider on apple (not online), even though the
on-device provider is unavailable. -/
theorem setOfflineMode_true_already_offline_cex :
    stC5.offlineMode = true ∧ stC5.appleAvailabilityChecked = true ∧
    stC5.appleAvailable = false ∧ stC5.model = none ∧
    (setOfflineMode envC5 stC5 true).1 = true ∧
    (setOfflineMode envC5 stC5 true).2.provider = Provider.apple := by
  refine ⟨rfl, rfl, rfl, rfl, rfl, rfl⟩

/-- C5 amended: provided offline mode is not already enabled, a
`setOfflineMode(true)` call during which the on-device provider is
unavailable (availability check reports unavailable, or model creation
fails) returns false, falls back to the online provider with offline mode
off, and records the unavailability reason (the check's non-empty reason
string, or the `load-failed:` message when creation threw). -/
theorem setOfflineMode_true_unavailable_falls_back (env : MMEnv) (s : MMState)
    (h0 : s.offlineMode = false)
    (hun : (if s.appleAvailabilityChecked then s.appleAvailable
            else env.appleCheck.available) = false ∨
           env.appleCreateFails.isSome = true) :
    (setOfflineMode env s true).1 = false ∧
    (setOfflineMode env s true).2.provider = Provider.online s.baseOnlineProvider ∧
    (setOfflineMode env s true).2.offlineMode = false ∧
    (s.appleAvailabilityChecked = false → env.appleCheck.available = false →
      (setOfflineMode env s true).2.appleUnavailableReason =
        (if env.appleCheck.reason = "" then none else some env.appleCheck.reason)) ∧
    (∀ e, (if s.appleAvailabilityChecked then s.appleAvailable
            else env.appleCheck.available) = true →
      env.appleCreateFails = some e →
      (setOfflineMode env s true).2.appleUnavailableReason =
        some ("load-failed:" ++ e)) := by
  have hne : ¬s.offlineMode = true := by simp [h0]
  by_cases hchk : s.appleAvailabilityChecked
  · by_cases hav : s.appleAvailable
    · rcases hun with hun | hun
      · simp [hchk, hav] at hun
      · obtain ⟨e, he⟩ := Option.isSome_iff_exists.mp hun
        refine ⟨?_, ?_, ?_, ?_, ?_⟩ <;>
          simp [setOfflineMode, initializeModel, getModelNameFor, hne, hchk, hav, he] <;>
          first
            | rfl
            | (split <;> rfl)
            | (intro e' h1 h2; split <;> simp_all)
            | simp_all
    · refine ⟨?_, ?_, ?_, ?_, ?_⟩ <;>
        simp [setOfflineMode, initializeModel, getModelNameFor, hne, hchk, hav] <;>
        first
          | rfl
          | (split <;> rfl)
          | (intro e' h1 h2; split <;> simp_all)
          | simp_all
  · by_cases hav : env.appleCheck.available
    · rcases hun with hun | hun
      · simp [hchk, hav] at hun
      · obtain ⟨e, he⟩ := Option.isSome_iff_exists.mp hun
        refine ⟨?_, ?_, ?_, ?_, ?_⟩ <;>
          simp [setOfflineMode, initializeModel, getModelNameFor, hne, hchk, hav, he] <;>
          first
            | rfl
            | (split <;> rfl)
            | (intro e' h1 h2; split <;> simp_all)
            | simp_all
    · refine ⟨?_, ?_, ?_, ?_, ?_⟩ <;>
        simp [setOfflineMode, initializeModel, getModelNameFor, hne, hchk, hav] <;>
        first
          | rfl
          | (split <;> rfl)
          | (intro e' h1 h2; split <;> simp_all)
          | simp_all

/-- Witness for the amended C5: from the initial online state under an
environment whose availability check fails, `setOfflineMode(true)` returns
false, stays online, and records the reason "nope". -/
theorem setOfflineMode_true_unavailable_falls_back_witness :
    stC5b.offlineMode = false ∧
    ((if stC5b.appleAvailabilityChecked then stC5b.appleAvailable
      else envC5b.appleCheck.available) = false ∨
      envC5b.appleCreateFails.isSome = true) ∧
    (setOfflineMode envC5b stC5b true).1 = false ∧
    (setOfflineMode envC5b stC5b true).2.provider =
      Provider.online stC5b.baseOnlineProvider ∧
    (setOfflineMode envC5b stC5b true).2.offlineMode = false ∧
    (setOfflineMode envC5b stC5b true).2.appleUnavailableReason = some "nope" := by
  have h := setOfflineMode_true_unavailable_falls_back envC5b stC5b rfl (Or.inl rfl)
  exact ⟨rfl, Or.inl rfl, h.1, h.2.1, h.2.2.1, h.2.2.2.1 rfl rfl⟩

/-- C7: when the user text matches one of the "what page am I on" phrasings
(the source's own detector, case-insensitive with the known typo pattern)
and the active tab is `{title:"Example", url:"https://example.com"}`, the
turn appends exactly the assistant reply
"You are on: Example — https://example.com" after the user message — the
event trace contains no provider call, no follow-up call and no tool
activity. The configuration hypothesis states that the turn reaches the
shortcut: either the on-device provider with a live model, or an online
provider with a configured key and a passing connectivity probe. -/
theorem what_page_shortcut (env : TurnEnv) (text : String)
    (hdet : detectWhatPageQuestion text = true)
    (htab : env.activeTab = some ⟨"Example", "https://example.com"⟩)
    (hcfg : (env.mm.provider = Provider.apple ∧ env.mm.model.isSome = true) ∨
            (env.mm.provider ≠ Provider.apple ∧
             (getApiKey env.menv env.mm.baseOnlineProvider).isSome = true ∧
             env.online = true)) :
    (sendChatMessage env text).1 =
      [TurnEvent.userAdded text,
       TurnEvent.assistantAdded "You are on: Example — https://example.com"] ∧
    TurnEvent.providerCall ∉ (sendChatMessage env text).1 ∧
    TurnEvent.followupCall ∉ (sendChatMessage env text).1 := by
  have hreply : whatPageReply (some ⟨"Example", "https://example.com"⟩) =
      "You are on: Example — https://example.com" := rfl
  rcases hcfg with ⟨hp, hm⟩ | ⟨hp, hk, ho⟩
  · have hlist : (sendChatMessage env text).1 =
        [TurnEvent.userAdded text,
         TurnEvent.assistantAdded "You are on: Example — https://example.com"] := by
      obtain ⟨m, hm'⟩ := Option.isSome_iff_exists.mp hm
      simp [sendChatMessage, hp, hm', hdet, htab, hreply]
    exact ⟨hlist, by rw [hlist]; simp, by rw [hlist]; simp⟩
  · have hlist : (sendChatMessage env text).1 =
        [TurnEvent.userAdded text,
         TurnEvent.assistantAdded "You are on: Example — https://example.com"] := by
      have hk' : ¬(getApiKey env.menv env.mm.baseOnlineProvider).isNone = true := by
        simp [Option.isNone_iff_eq_none]
        simp [Option.isSome_iff_exists] at hk
        obtain ⟨k, hk⟩ := hk
        simp [hk]
      simp [sendChatMessage, hp, hk', ho, hdet, htab, hreply]
    exact ⟨hlist, by rw [hlist]; simp, by rw [hlist]; simp⟩

/-- Witness for C7: the concrete online environment with the Example tab and
the literal query "what page am I on?". -/
theorem what_page_shortcut_witness :
    detectWhatPageQuestion "what page am I on?" = true ∧
    turnEnvEx.activeTab = some ⟨"Example", "https://example.com"⟩ ∧
    (sendChatMessage turnEnvEx "what page am I on?").1 =
      [TurnEvent.userAdded "what page am I on?",
       TurnEvent.assistantAdded "You are on: Example — https://example.com"] := by
  have h := what_page_shortcut turnEnvEx "what page am I on?" (by decide) rfl
    (Or.inr ⟨by decide, rfl, rfl⟩)
  exact ⟨by decide, rfl, h.1⟩

/-- C8 counterexample: a successful `get_page_info` invocation emits no
`toolCall` EventFrame at all (in both the AI-SDK and the native bundle),
and a failed `open_url` invocation emits no `toolResult` EventFrame —
refuting "for every invocation of either tool capability, a toolCall frame
is emitted before execution and a toolResult frame after execution". -/
theorem get_page_info_no_toolCall_cex :
    (nativeGetPageInfo (Except.ok infoEx)).1.filter isToolCallEvt = [] ∧
    (sdkGetPageInfo (Except.ok infoEx)).1.filter isToolCallEvt = [] ∧
    (nativeGetPageInfo (Except.ok infoEx)).1 ≠ [] ∧
    sdkOpenUrl (Except.error "boom") =
      ([ToolEvt.toolCall "open_url"], ToolOut.errObj "boom") := by
  refine ⟨rfl, rfl, by decide, rfl⟩

/-- C8 amended: `open_url` emits a `toolCall` frame before execution on every
path; on success both tools emit exactly one `toolResult` frame whose native
payload is size-limited (summary sliced to at most 300 characters, at most 8
links); on failure no `toolResult` frame is emitted and the failure is
returned to the model as a structured error object rather than raised;
`get_page_info` emits no `toolCall` frame. -/
theorem tool_events_amended (res : Except String PageInfoRec) :
    ((sdkOpenUrl res).1.head? = some (ToolEvt.toolCall "open_url")) ∧
    ((nativeOpenUrl res).1.head? = some (ToolEvt.toolCall "open_url")) ∧
    ((sdkGetPageInfo res).1.filter isToolCallEvt = [] ∧
     (nativeGetPageInfo res).1.filter isToolCallEvt = []) ∧
    (∀ i, res = .ok i →
      nativeOpenUrl res =
        ([.toolCall "open_url",
          .toolResultNative "open_url" (summarySlice i.summary 300)
            (i.links.take 8) i.links.length], .info i) ∧
      nativeGetPageInfo res =
        ([.toolResultNative "get_page_info" (summarySlice i.summary 300)
            (i.links.take 8) i.links.length], .info i) ∧
      (summarySlice i.summary 300).length ≤ 300 ∧ (i.links.take 8).length ≤ 8) ∧
    (∀ e, res = .error e →
      (sdkOpenUrl res).2 = .errObj e ∧ (sdkGetPageInfo res).2 = .errObj e ∧
      (nativeOpenUrl res).2 = .errObj e ∧ (nativeGetPageInfo res).2 = .errObj e ∧
      (sdkOpenUrl res).1 = [ToolEvt.toolCall "open_url"] ∧
      (sdkGetPageInfo res).1 = [] ∧
      (nativeOpenUrl res).1 = [ToolEvt.toolCall "open_url"] ∧
      (nativeGetPageInfo res).1 = []) := by
  cases res with
  | ok i =>
    refine ⟨rfl, rfl, ⟨rfl, rfl⟩, ?_, ?_⟩
    · intro j hj
      obtain rfl : i = j := by injection hj
      refine ⟨rfl, rfl, ?_, ?_⟩
      · show (i.summary.data.take 300).length ≤ 300
        exact List.length_take_le ..
      · exact List.length_take_le 8 i.links
    · intro e he; cases he
  | error e =>
    refine ⟨rfl, rfl, ⟨rfl, rfl⟩, ?_, ?_⟩
    · intro j hj; cases hj
    · intro e' he
      obtain rfl : e = e' := by injection he
      exact ⟨rfl, rfl, rfl, rfl, rfl, rfl, rfl, rfl⟩

/-- Witness for the amended C8 at a concrete successful inspection result. -/
theorem tool_events_amended_witness :
    nativeGetPageInfo (Except.ok infoEx) =
      ([ToolEvt.toolResultNative "get_page_info" (summarySlice infoEx.summary 300)
          (infoEx.links.take 8) infoEx.links.length], ToolOut.info infoEx) ∧
    (summarySlice infoEx.summary 300).length ≤ 300 := by
  have h := (tool_events_amended (Except.ok infoEx)).2.2.2.1 infoEx rfl
  exact ⟨h.2.1, h.2.2.1⟩

/-- C9 counterexample: the fallback guard `didAppleLocaleFallback` is never
reset, so it is one retry per client lifetime, not per conversation turn.
Turn 1 (apple provider, locale failure, guard clear) performs one online
retry; after the user re-enables offline mode, turn 2 hits the same locale
failure on the apple provider but performs zero retries — refuting "each
turn in which such a failure occurs gets one (and only one) online retry". -/
theorem locale_fallback_second_turn_no_retry_cex :
    turn1.1.count HEvent.retryOnline = 1 ∧
    stTurn2.mm.provider = Provider.apple ∧
    stTurn2.didAppleLocaleFallback = true ∧
    isLocaleError "unsupported locale" = true ∧
    turn2.1.count HEvent.retryOnline = 0 := by
  refine ⟨rfl, rfl, rfl, rfl, rfl⟩

/-- Constructor discrimination facts for counting retry events. -/
theorem beq_assistantAdded_retry (s : String) :
    (HEvent.assistantAdded s == HEvent.retryOnline) = false := rfl

/-- `errorSent` is never the retry event. -/
theorem beq_errorSent_retry (s : String) :
    (HEvent.errorSent s == HEvent.retryOnline) = false := rfl

/-- `broadcastOffline` is never the retry event. -/
theorem beq_broadcastOffline_retry (b : Bool) :
    (HEvent.broadcastOffline b == HEvent.retryOnline) = false := rfl

/-- `retryOnline` equals itself under `==`. -/
theorem beq_retry_retry : (HEvent.retryOnline == HEvent.retryOnline) = true := rfl

/-- When the fallback guard blocks (wrong provider, guard already set, or a
non-locale error), `handleStreamError` only sends the classified error and
leaves the state untouched. -/
theorem handleStreamError_no_fallback (menv : MMEnv) (st : ClientState)
    (errMsg : String) (ro : Option String)
    (h : ¬(st.mm.provider = Provider.apple ∧ st.didAppleLocaleFallback = false ∧
        isLocaleError errMsg = true)) :
    handleStreamError menv st errMsg ro =
      ([HEvent.errorSent (getErrorMessage true errMsg)], st) := by
  simp only [handleStreamError, if_neg h]

/-- When the fallback fires, the events contain exactly one retry when the
online switch produced a model (zero otherwise), and the resulting state has
the guard set with the switched ModelManager state. -/
theorem handleStreamError_fallback_count (menv : MMEnv) (st : ClientState)
    (errMsg : String) (ro : Option String)
    (hp : st.mm.provider = Provider.apple) (hg : st.didAppleLocaleFallback = false)
    (hl : isLocaleError errMsg = true) :
    (handleStreamError menv st errMsg ro).1.count HEvent.retryOnline =
      (if (setOfflineMode menv st.mm false).2.model.isNone then 0 else 1) ∧
    (handleStreamError menv st errMsg ro).2 =
      ⟨(setOfflineMode menv st.mm false).2, true⟩ := by
  have hc : st.mm.provider = Provider.apple ∧ st.didAppleLocaleFallback = false ∧
      isLocaleError errMsg = true := ⟨hp, hg, hl⟩
  cases ro with
  | none =>
    by_cases hm : (setOfflineMode menv st.mm false).2.model.isNone <;>
      by_cases hb : ((setOfflineMode menv st.mm false).1 = false ∧
        (setOfflineMode menv st.mm false).2.provider ≠ Provider.apple) <;>
      simp [handleStreamError, hc, hm, hb, List.count_append, List.count_cons,
        List.count_nil, beq_assistantAdded_retry, beq_errorSent_retry,
        beq_broadcastOffline_retry, beq_retry_retry, List.count_singleton]
  | some t =>
    by_cases ht : t = "" <;>
      by_cases hm : (setOfflineMode menv st.mm false).2.model.isNone <;>
      by_cases hb : ((setOfflineMode menv st.mm false).1 = false ∧
        (setOfflineMode menv st.mm false).2.provider ≠ Provider.apple) <;>
      simp [handleStreamError, hc, ht, hm, hb, List.count_append, List.count_cons,
        List.count_nil, beq_assistantAdded_retry, beq_errorSent_retry,
        beq_broadcastOffline_retry, beq_retry_retry, List.count_singleton]

/-- C9 amended: the unsupported-locale fallback performs at most one online
retry per call, performs none once the one-shot guard is set, sets the guard
when it fires (and performs exactly one retry when the online switch yields
a model), and the guard is never cleared — so the retry is one per
`LLMClient` instance lifetime, not one per conversation turn. -/
theorem locale_fallback_once_per_client (menv : MMEnv) (st : ClientState)
    (errMsg : String) (ro : Option String) :
    ((handleStreamError menv st errMsg ro).1.count HEvent.retryOnline ≤ 1) ∧
    (st.didAppleLocaleFallback = true →
      (handleStreamError menv st errMsg ro).1.count HEvent.retryOnline = 0) ∧
    (st.mm.provider = Provider.apple → st.didAppleLocaleFallback = false →
      isLocaleError errMsg = true →
      (handleStreamError menv st errMsg ro).2.didAppleLocaleFallback = true) ∧
    ((handleStreamError menv st errMsg ro).2.didAppleLocaleFallback =
        st.didAppleLocaleFallback ∨
      (handleStreamError menv st errMsg ro).2.didAppleLocaleFallback = true) ∧
    (st.mm.provider = Provider.apple → st.didAppleLocaleFallback = false →
      isLocaleError errMsg = true →
      (setOfflineMode menv st.mm false).2.model.isSome = true →
      (handleStreamError menv st errMsg ro).1.count HEvent.retryOnline = 1) := by
  by_cases hcond : st.mm.provider = Provider.apple ∧ st.didAppleLocaleFallback = false ∧
      isLocaleError errMsg = true
  · obtain ⟨hp, hg, hl⟩ := hcond
    have h := handleStreamError_fallback_count menv st errMsg ro hp hg hl
    refine ⟨?_, ?_, ?_, ?_, ?_⟩
    · rw [h.1]; split <;> simp
    · intro hguard; rw [hguard] at hg; cases hg
    · intro _ _ _; rw [h.2]
    · right; rw [h.2]
    · intro _ _ _ hm
      have hne : ¬(setOfflineMode menv st.mm false).2.model.isNone = true := by
        simp only [Option.isNone_iff_eq_none]
        exact Option.isSome_iff_ne_none.mp hm
      rw [h.1, if_neg hne]
  · have h := handleStreamError_no_fallback menv st errMsg ro hcond
    refine ⟨?_, ?_, ?_, ?_, ?_⟩
    · rw [h]; simp [List.count_cons, beq_errorSent_retry]
    · intro _; rw [h]; simp [List.count_cons, beq_errorSent_retry]
    · intro hp hg hl; exact absurd ⟨hp, hg, hl⟩ hcond
    · left; rw [h]
    · intro hp hg hl _; exact absurd ⟨hp, hg, hl⟩ hcond

/-- Witness for the amended C9 at the concrete first/second turns. -/
theorem locale_fallback_once_per_client_witness :
    (turn2.1.count HEvent.retryOnline ≤ 1) ∧
    (stTurn2.didAppleLocaleFallback = true →
      turn2.1.count HEvent.retryOnline = 0) ∧
    turn2.1.count HEvent.retryOnline = 0 := by
  have h := locale_fallback_once_per_client envApple stTurn2 "unsupported locale" (some "ok")
  exact ⟨h.1, h.2.1, h.2.1 rfl⟩

end Blueberry
